import Mathlib

set_option maxRecDepth 10000

/-!
Shallow embedding of the `echo-openapidocs` Go library.

The library registers HTTP handlers that serve OpenAPI documentation pages for
four viewer providers (Stoplight Elements, Scalar, Swagger UI, Redoc).  Each
provider module is embedded below: its configuration record, default
configuration, template rendering of the built-in template, the configuration
normalisation performed at the top of the handler factory, and the
request-dispatch function returned by the factory.  Go strings are modelled as
Lean `String` (lists of characters); the relevant Go standard-library
functions (`strings.HasSuffix`, `strings.TrimSuffix`, `path.Join`/`path.Clean`,
the `html/template` escapers and the `encoding/json` string encoder) are
modelled explicitly.  The `panic` in each factory is modelled as the error
branch of an `Except`.
-/

/-- Model of Go `strings.HasSuffix(s, sfx)`: whether `s` ends with `sfx`. -/
def goHasSuffix (s sfx : String) : Bool :=
  sfx.data.isSuffixOf s.data

/-- Model of Go `strings.TrimSuffix(s, sfx)`: `s` without the trailing `sfx`,
or `s` unchanged when `s` does not end with `sfx`. -/
def goTrimSuffix (s sfx : String) : String :=
  if goHasSuffix s sfx then String.mk (s.data.take (s.data.length - sfx.data.length)) else s

/-- Splits a character list at slash characters (helper for the `path.Clean` model). -/
def splitSlashAux : List Char → List Char → List (List Char)
  | [], acc => [acc.reverse]
  | c :: cs, acc => if c = '/' then acc.reverse :: splitSlashAux cs [] else splitSlashAux cs (c :: acc)

/-- Splits a character list on slashes. -/
def splitSlash (s : List Char) : List (List Char) := splitSlashAux s []

/-- Element processing of Go `path.Clean`: empty and dot elements are dropped,
a dotdot element pops the last kept element when possible; at the root it is
dropped, and in a relative path with nothing left to pop it is kept. -/
def cleanSegs (rooted : Bool) : List (List Char) → List (List Char) → List (List Char)
  | [], stack => stack.reverse
  | seg :: rest, stack =>
    if seg = [] ∨ seg = ['.'] then cleanSegs rooted rest stack
    else if seg = ['.', '.'] then
      match stack with
      | [] => if rooted then cleanSegs rooted rest [] else cleanSegs rooted rest [['.', '.']]
      | top :: stk =>
        if top = ['.', '.'] then cleanSegs rooted rest (['.', '.'] :: top :: stk)
        else cleanSegs rooted rest stk
    else cleanSegs rooted rest (seg :: stack)

/-- Joins path elements with slashes. -/
def joinSegs : List (List Char) → List Char
  | [] => []
  | [s] => s
  | s :: t :: rest => s ++ '/' :: joinSegs (t :: rest)

/-- Model of Go `path.Clean`: the shortest lexically equivalent path (duplicate
slashes and dot elements removed, dotdot elements resolved; the empty path
cleans to a dot). -/
def goPathClean (s : String) : String :=
  if s = "" then "."
  else
    let rooted : Bool := s.data.head? = some '/'
    let body := joinSegs (cleanSegs rooted (splitSlash s.data) [])
    if rooted then String.mk ('/' :: body)
    else if body = [] then "." else String.mk body

/-- Model of Go `path.Join` for two elements: empty elements are ignored, the
rest are joined with a slash and the result is cleaned; the result is empty
only when both elements are empty. -/
def goPathJoin (a b : String) : String :=
  if a = "" then (if b = "" then "" else goPathClean b)
  else if b = "" then goPathClean a
  else goPathClean (a ++ "/" ++ b)

/-- Model of the `html/template` HTML escaper applied to text and attribute
interpolations. -/
def htmlEscapeChar (c : Char) : String :=
  if c = '<' then "&lt;"
  else if c = '>' then "&gt;"
  else if c = '&' then "&amp;"
  else if c = '\x27' then "&#39;"
  else if c = '"' then "&#34;"
  else if c = '\x00' then "�"
  else String.singleton c

/-- HTML-escapes a string as `html/template` does. -/
def htmlEscape (s : String) : String :=
  s.data.foldl (fun acc c => acc ++ htmlEscapeChar c) ""

/-- Text before the first colon of a URL, when a colon is present (helper for
the `html/template` URL filter). -/
def schemeBeforeColon : List Char → Option (List Char)
  | [] => none
  | c :: rest => if c = ':' then some [] else (schemeBeforeColon rest).map (fun pre => c :: pre)

/-- Model of `html/template` URL safety: a URL with an explicit protocol is
safe only for http, https and mailto (case-insensitively); relative URLs and
URLs whose first colon comes after a slash are safe. -/
def isSafeURL (s : String) : Bool :=
  match schemeBeforeColon s.data with
  | none => true
  | some proto =>
    if proto.contains '/' then true
    else
      let low := proto.map Char.toLower
      low = "http".data || low = "https".data || low = "mailto".data

/-- Model of the `html/template` URL filter applied to URL-valued attributes:
unsafe URLs are replaced by the filtered-URL marker. -/
def urlFilter (s : String) : String :=
  if isSafeURL s then s else "#ZgotmplZ"

/-- Lowercase hexadecimal digit, as used by the `encoding/json` encoder. -/
def hexDigitChar (n : Nat) : Char :=
  if n < 10 then Char.ofNat (48 + n) else Char.ofNat (87 + n)

/-- Model of the `encoding/json` string escaper with its default HTML escaping
of angle brackets and ampersands. -/
def jsonEscapeChar (c : Char) : String :=
  if c = '"' then "\\\""
  else if c = '\\' then "\\\\"
  else if c = '\n' then "\\n"
  else if c = '\r' then "\\r"
  else if c = '\t' then "\\t"
  else if c = '<' then "\\u003c"
  else if c = '>' then "\\u003e"
  else if c = '&' then "\\u0026"
  else if c.toNat < 32 then
    String.mk ['\\', 'u', '0', '0', hexDigitChar (c.toNat / 16), hexDigitChar (c.toNat % 16)]
  else if c.toNat = 8232 then "\\u2028"
  else if c.toNat = 8233 then "\\u2029"
  else String.singleton c

/-- Serialises a string as a JSON string literal, as `encoding/json` does. -/
def jsonString (s : String) : String :=
  "\"" ++ s.data.foldl (fun acc c => acc ++ jsonEscapeChar c) "" ++ "\""

/-- Joins JSON object members with commas. -/
def joinComma : List String → String
  | [] => ""
  | [s] => s
  | s :: t :: rest => s ++ "," ++ joinComma (t :: rest)

/-- Whether `pat` occurs as a contiguous substring (used to state facts about
rendered bodies). -/
def listContainsSubstr (pat : List Char) : List Char → Bool
  | [] => pat.isEmpty
  | c :: rest => pat.isPrefixOf (c :: rest) || listContainsSubstr pat rest

/-- Whether `pat` occurs as a contiguous substring of `s`. -/
def strContainsSubstr (s pat : String) : Bool := listContainsSubstr pat.data s.data

/-- HTTP responses the handlers can produce: `c.Blob`, `c.Redirect` and
`c.HTML` in the source. -/
inductive Response where
  | blob (status : Nat) (contentType : String) (body : String)
  | redirect (status : Nat) (location : String)
  | html (status : Nat) (body : String)
deriving DecidableEq

/-- Status code of a response. -/
def Response.status : Response → Nat
  | .blob s _ _ => s
  | .redirect s _ => s
  | .html s _ => s

/-- The request dispatch that all four provider handlers implement verbatim
(elements.go lines 161-195, scalar.go lines 139-190 and the corresponding
Swagger UI and Redoc handlers): compute `basePath` by trimming the wildcard
remainder off the request path; when an inline spec is configured and the
request path ends with `path.Join(basePath, "openapi-spec")`, serve the raw
spec; otherwise redirect sub-path requests to `basePath` unless the provider
uses history routing; otherwise render the page.  `page` stands for the
provider-specific template rendering applied to `basePath` and the effective
spec reference. -/
def handlerCore (spec specUrl0 : String) (historyRouting : Bool)
    (page : String → String → String) (p relPath : String) : Response :=
  let basePath := goTrimSuffix p relPath
  let specUrl := if spec = "" then specUrl0 else goPathJoin basePath "openapi-spec"
  if spec ≠ "" ∧ goHasSuffix p specUrl = true then
    Response.blob 200 "text/plain; charset=utf-8" spec
  else if historyRouting = false ∧ relPath ≠ "" then
    Response.redirect 302 basePath
  else
    Response.html 200 (page basePath specUrl)

/-- The Elements `router` option values (a Go string type). -/
abbrev ElementsRouter := String

/-- The Elements `layout` option values (a Go string type). -/
abbrev ElementsLayout := String

/-- The Elements `tryItCredentialsPolicy` option values (a Go string type). -/
abbrev ElementsTryItCredentialsPolicy := String

def ElementsRouterHash : ElementsRouter := "hash"

def ElementsRouterHistory : ElementsRouter := "history"

def ElementsRouterMemory : ElementsRouter := "memory"

def ElementsLayoutSidebar : ElementsLayout := "sidebar"

def ElementsLayoutResponsive : ElementsLayout := "responsive"

def ElementsLayoutStacked : ElementsLayout := "stacked"

def ElementsTryItCredentialsPolicyOmit : ElementsTryItCredentialsPolicy := "omit"

def ElementsTryItCredentialsInclude : ElementsTryItCredentialsPolicy := "include"

def ElementsTryItCredentialsSameOrigin : ElementsTryItCredentialsPolicy := "same-origin"

/-- Configuration for the Stoplight Elements handler.  Field defaults are the
Go zero values of the struct. -/
structure ElementsConfig where
  Spec : String := ""
  SpecUrl : String := ""
  Title : String := ""
  Template : String := ""
  Router : ElementsRouter := ""
  Layout : ElementsLayout := ""
  HideInternal : Bool := false
  HideTryIt : Bool := false
  HideSchemas : Bool := false
  HideExport : Bool := false
  TryItCorsProxy : String := ""
  TryItCredentialsPolicy : ElementsTryItCredentialsPolicy := ""
  Logo : String := ""
deriving DecidableEq

/-- Text of the built-in Elements template (`defaultElementsTemplate` in the
source; template braces are written with hexadecimal escapes). -/
def defaultElementsTemplate : String :=
  "<html lang=\"en\">\n" ++
  "<head>\n" ++
  "  <meta charset=\"utf-8\">\n" ++
  "  <meta name=\"viewport\" content=\"width=device-width, initial-scale=1\">\n" ++
  "  <title>\x7b\x7b .Title \x7d\x7d</title>\n" ++
  "  <script src=\"https://unpkg.com/@stoplight/elements/web-components.min.js\"></script>\n" ++
  "  <link rel=\"stylesheet\" href=\"https://unpkg.com/@stoplight/elements/styles.min.css\">\n" ++
  "</head>\n" ++
  "<body>\n" ++
  "  <elements-api\n" ++
  "    apiDescriptionUrl=\"\x7b\x7b .ApiDescriptionUrl \x7d\x7d\"\n" ++
  "    \x7b\x7b- if ne .BasePath \"\" \x7d\x7d\n" ++
  "    basePath=\"\x7b\x7b .BasePath \x7d\x7d\"\n" ++
  "    \x7b\x7b- end \x7d\x7d\n" ++
  "    \x7b\x7b- if .HideInternal \x7d\x7d\n" ++
  "    hideInternal=\"true\"\n" ++
  "    \x7b\x7b- end \x7d\x7d\n" ++
  "    \x7b\x7b- if .HideTryIt \x7d\x7d\n" ++
  "    hideTryIt=\"true\"\n" ++
  "    \x7b\x7b- end \x7d\x7d\n" ++
  "    \x7b\x7b- if .HideSchemas \x7d\x7d\n" ++
  "    hideSchemas=\"true\"\n" ++
  "    \x7b\x7b- end \x7d\x7d\n" ++
  "    \x7b\x7b- if .HideExport \x7d\x7d\n" ++
  "    hideExport=\"true\"\n" ++
  "    \x7b\x7b- end \x7d\x7d\n" ++
  "    \x7b\x7b- if ne .TryItCorsProxy \"\" \x7d\x7d\n" ++
  "    tryItCorsProxy=\"\x7b\x7b .TryItCorsProxy \x7d\x7d\"\n" ++
  "    \x7b\x7b- end \x7d\x7d\n" ++
  "    \x7b\x7b- if and (ne .TryItCredentialsPolicy \"\") (ne .TryItCredentialsPolicy \"omit\") \x7d\x7d\n" ++
  "    tryItCredentialsPolicy=\"\x7b\x7b .TryItCredentialsPolicy \x7d\x7d\"\n" ++
  "    \x7b\x7b- end \x7d\x7d\n" ++
  "    layout=\"\x7b\x7b .Layout \x7d\x7d\"\n" ++
  "    \x7b\x7b- if ne .Logo \"\" \x7d\x7d\n" ++
  "    logo=\"\x7b\x7b .Logo \x7d\x7d\"\n" ++
  "    \x7b\x7b- end \x7d\x7d\n" ++
  "    router=\"\x7b\x7b .Router \x7d\x7d\"\n" ++
  "  />\n" ++
  "</body>\n" ++
  "</html>\n"

/-- The `DefaultElementsConfig` singleton of the source. -/
def DefaultElementsConfig : ElementsConfig :=
  { Spec := ""
    SpecUrl := ""
    Title := "API documentation with Stoplight Elements"
    Template := defaultElementsTemplate
    Router := ElementsRouterHistory
    Layout := ElementsLayoutSidebar
    HideInternal := false
    HideTryIt := false
    HideSchemas := false
    HideExport := false
    TryItCorsProxy := ""
    TryItCredentialsPolicy := ElementsTryItCredentialsPolicyOmit
    Logo := "" }

/-- Parameters handed to the Elements template (`elementsTemplateParams`):
the configuration plus the computed base path and effective spec reference. -/
structure elementsTemplateParams extends ElementsConfig where
  BasePath : String
  ApiDescriptionUrl : String
deriving DecidableEq

/-- Output of the conditional `basePath` attribute block of the built-in
Elements template: rendered only when `BasePath` is non-empty. -/
def elementsBasePathAttr (pr : elementsTemplateParams) : String :=
  if pr.BasePath ≠ "" then "\n    basePath=\"" ++ htmlEscape pr.BasePath ++ "\"" else ""

/-- Output of the conditional `hideInternal` attribute block. -/
def elementsHideInternalAttr (pr : elementsTemplateParams) : String :=
  if pr.HideInternal then "\n    hideInternal=\"true\"" else ""

/-- Output of the conditional `hideTryIt` attribute block. -/
def elementsHideTryItAttr (pr : elementsTemplateParams) : String :=
  if pr.HideTryIt then "\n    hideTryIt=\"true\"" else ""

/-- Output of the conditional `hideSchemas` attribute block. -/
def elementsHideSchemasAttr (pr : elementsTemplateParams) : String :=
  if pr.HideSchemas then "\n    hideSchemas=\"true\"" else ""

/-- Output of the conditional `hideExport` attribute block. -/
def elementsHideExportAttr (pr : elementsTemplateParams) : String :=
  if pr.HideExport then "\n    hideExport=\"true\"" else ""

/-- Output of the conditional `tryItCorsProxy` attribute block: rendered only
when the option is non-empty. -/
def elementsTryItCorsProxyAttr (pr : elementsTemplateParams) : String :=
  if pr.TryItCorsProxy ≠ "" then "\n    tryItCorsProxy=\"" ++ htmlEscape pr.TryItCorsProxy ++ "\"" else ""

/-- Output of the conditional `tryItCredentialsPolicy` attribute block:
rendered only when the option is neither empty nor the `omit` default. -/
def elementsCredentialsPolicyAttr (pr : elementsTemplateParams) : String :=
  if pr.TryItCredentialsPolicy ≠ "" ∧ pr.TryItCredentialsPolicy ≠ "omit" then
    "\n    tryItCredentialsPolicy=\"" ++ htmlEscape pr.TryItCredentialsPolicy ++ "\""
  else ""

/-- Output of the `layout` attribute of the built-in Elements template: the
template renders it unconditionally. -/
def elementsLayoutAttr (pr : elementsTemplateParams) : String :=
  "\n    layout=\"" ++ htmlEscape pr.Layout ++ "\""

/-- Output of the conditional `logo` attribute block. -/
def elementsLogoAttr (pr : elementsTemplateParams) : String :=
  if pr.Logo ≠ "" then "\n    logo=\"" ++ htmlEscape pr.Logo ++ "\"" else ""

/-- Output of the `router` attribute of the built-in Elements template: the
template renders it unconditionally. -/
def elementsRouterAttr (pr : elementsTemplateParams) : String :=
  "\n    router=\"" ++ htmlEscape pr.Router ++ "\""

/-- Execution of the built-in Elements template by `html/template`: static
text interleaved with escaped interpolations and the conditional attribute
blocks (whitespace follows the template trim markers). -/
def renderDefaultElements (pr : elementsTemplateParams) : String :=
  "<html lang=\"en\">\n<head>\n  <meta charset=\"utf-8\">\n  <meta name=\"viewport\" content=\"width=device-width, initial-scale=1\">\n  <title>"
  ++ htmlEscape pr.Title
  ++ "</title>\n  <script src=\"https://unpkg.com/@stoplight/elements/web-components.min.js\"></script>\n  <link rel=\"stylesheet\" href=\"https://unpkg.com/@stoplight/elements/styles.min.css\">\n</head>\n<body>\n  <elements-api\n    apiDescriptionUrl=\""
  ++ htmlEscape (urlFilter pr.ApiDescriptionUrl) ++ "\""
  ++ elementsBasePathAttr pr
  ++ elementsHideInternalAttr pr
  ++ elementsHideTryItAttr pr
  ++ elementsHideSchemasAttr pr
  ++ elementsHideExportAttr pr
  ++ elementsTryItCorsProxyAttr pr
  ++ elementsCredentialsPolicyAttr pr
  ++ elementsLayoutAttr pr
  ++ elementsLogoAttr pr
  ++ elementsRouterAttr pr
  ++ "\n  />\n</body>\n</html>\n"

/-- Default filling performed at the top of `ElementsDocumentsHandler`:
empty `Template`, `Router`, `Layout`, `Title` and `TryItCredentialsPolicy`
fields are replaced by the values of `DefaultElementsConfig`. -/
def elementsNormalize (config : ElementsConfig) : ElementsConfig :=
  { config with
    Template := if config.Template = "" then DefaultElementsConfig.Template else config.Template
    Router := if config.Router = "" then DefaultElementsConfig.Router else config.Router
    Layout := if config.Layout = "" then DefaultElementsConfig.Layout else config.Layout
    Title := if config.Title = "" then DefaultElementsConfig.Title else config.Title
    TryItCredentialsPolicy :=
      if config.TryItCredentialsPolicy = "" then DefaultElementsConfig.TryItCredentialsPolicy
      else config.TryItCredentialsPolicy }

/-- Model of `htmltemplate.Must(htmltemplate.New("T").Parse(tmpl))`: the
`html/template` engine is modelled for the built-in template only; a custom
template is modelled as an uninterpreted rendering (no claim below concerns a
custom template). -/
def elementsParseTemplate (tmpl : String) : elementsTemplateParams → String :=
  if tmpl = defaultElementsTemplate then renderDefaultElements else fun _ => ""

/-- Body of the closure returned by `ElementsDocumentsHandler`: the shared
dispatch with the Elements page parameters; sub-path redirection is skipped
exactly when the (normalised) `Router` is the history mode. -/
def elementsServe (config : ElementsConfig) (render : elementsTemplateParams → String)
    (p relPath : String) : Response :=
  handlerCore config.Spec config.SpecUrl (config.Router == ElementsRouterHistory)
    (fun basePath specUrl =>
      render { toElementsConfig := config, BasePath := basePath, ApiDescriptionUrl := specUrl })
    p relPath

/-- The `ElementsDocumentsHandler` factory: normalises the configuration,
fails (Go: panics) when neither `Spec` nor `SpecUrl` is set, and otherwise
returns the request handler closed over the normalised configuration. -/
def ElementsDocumentsHandler (config : ElementsConfig) :
    Except String (String → String → Response) :=
  let c := elementsNormalize config
  if c.Spec = "" ∧ c.SpecUrl = "" then
    Except.error "either Spec or SpecUrl must be set"
  else
    Except.ok (elementsServe c (elementsParseTemplate c.Template))

/-- The Scalar `layout` option values (a Go string type). -/
abbrev ScalarLayout := String

/-- The Scalar `theme` option values (a Go string type). -/
abbrev ScalarTheme := String

def ScalarLayoutModern : ScalarLayout := "modern"

def ScalarLayoutClassic : ScalarLayout := "classic"

def ScalarThemeAlternate : ScalarTheme := "alternate"

def ScalarThemeDefault : ScalarTheme := "default"

def ScalarThemeMoon : ScalarTheme := "moon"

def ScalarThemePurple : ScalarTheme := "purple"

def ScalarThemeSolarized : ScalarTheme := "solarized"

def ScalarThemeBluePlanet : ScalarTheme := "bluePlanet"

def ScalarThemeSaturn : ScalarTheme := "saturn"

def ScalarThemeMars : ScalarTheme := "mars"

def ScalarThemeDeepSpace : ScalarTheme := "deepSpace"

def ScalarThemeNone : ScalarTheme := "none"

/-- Configuration for the Scalar handler.  Field defaults are the Go zero
values of the struct. -/
structure ScalarConfig where
  Spec : String := ""
  SpecUrl : String := ""
  Title : String := ""
  Template : String := ""
  IsEditable : Bool := false
  ProxyUrl : String := ""
  DarkMode : Bool := false
  Layout : ScalarLayout := ""
  Theme : ScalarTheme := ""
  HideSidebar : Bool := false
  SearchHotKey : String := ""
deriving DecidableEq

/-- The `spec` member of the Scalar api-reference configuration JSON. -/
structure apiReferenceConfigurationSpec where
  URL : String
deriving DecidableEq

/-- The Scalar api-reference configuration serialised into the page
(`apiReferenceConfiguration` in the source, with its `encoding/json` tags). -/
structure apiReferenceConfiguration where
  IsEditable : Bool
  Spec : apiReferenceConfigurationSpec
  ProxyUrl : String
  DarkMode : Bool
  Layout : ScalarLayout
  Theme : ScalarTheme
  ShowSidebar : Bool
  SearchHotKey : String
deriving DecidableEq

/-- JSON member for `isEditable` (tag `isEditable,omitempty`): omitted when false. -/
def scalarIsEditableField (c : apiReferenceConfiguration) : List String :=
  if c.IsEditable then ["\"isEditable\":true"] else []

/-- JSON member for `spec` (tag `spec`, no omitempty): always serialised. -/
def scalarSpecField (c : apiReferenceConfiguration) : List String :=
  ["\"spec\":\x7b\"url\":" ++ jsonString c.Spec.URL ++ "\x7d"]

/-- JSON member for `proxyUrl` (tag `proxyUrl,omitempty`): omitted when empty. -/
def scalarProxyUrlField (c : apiReferenceConfiguration) : List String :=
  if c.ProxyUrl ≠ "" then ["\"proxyUrl\":" ++ jsonString c.ProxyUrl] else []

/-- JSON member for `darkMode` (tag `darkMode,omitempty`): omitted when false. -/
def scalarDarkModeField (c : apiReferenceConfiguration) : List String :=
  if c.DarkMode then ["\"darkMode\":true"] else []

/-- JSON member for `layout` (tag `layout,omitempty`): omitted when empty. -/
def scalarLayoutField (c : apiReferenceConfiguration) : List String :=
  if c.Layout ≠ "" then ["\"layout\":" ++ jsonString c.Layout] else []

/-- JSON member for `theme` (tag `theme,omitempty`): omitted when empty. -/
def scalarThemeField (c : apiReferenceConfiguration) : List String :=
  if c.Theme ≠ "" then ["\"theme\":" ++ jsonString c.Theme] else []

/-- JSON member for `showSidebar` (tag `showSidebar`, deliberately without
omitempty in the source): always serialised. -/
def scalarShowSidebarField (c : apiReferenceConfiguration) : List String :=
  ["\"showSidebar\":" ++ (if c.ShowSidebar then "true" else "false")]

/-- JSON member for `searchHotKey` (tag `searchHotKey,omitempty`): omitted
when empty. -/
def scalarSearchHotKeyField (c : apiReferenceConfiguration) : List String :=
  if c.SearchHotKey ≠ "" then ["\"searchHotKey\":" ++ jsonString c.SearchHotKey] else []

/-- Model of `json.Marshal` on `apiReferenceConfiguration`: the members in
struct order, with the omitempty tags honoured. -/
def marshalApiReferenceConfiguration (c : apiReferenceConfiguration) : String :=
  "\x7b" ++
    joinComma (scalarIsEditableField c ++ scalarSpecField c ++ scalarProxyUrlField c ++
      scalarDarkModeField c ++ scalarLayoutField c ++ scalarThemeField c ++
      scalarShowSidebarField c ++ scalarSearchHotKeyField c) ++ "\x7d"

/-- Parameters handed to the Scalar template (`scalarTemplateParams`); the
serialised configuration is a `template.JS` value, modelled as its string. -/
structure scalarTemplateParams extends ScalarConfig where
  BasePath : String
  ApiReferenceConfiguration : String
deriving DecidableEq

/-- Text of the built-in Scalar template (`defaultScalarTemplate` in the
source; template braces and apostrophes are written with hexadecimal
escapes). -/
def defaultScalarTemplate : String :=
  "<html lang=\"en\">\n" ++
  "<head>\n" ++
  "  <meta charset=\"utf-8\">\n" ++
  "  <meta name=\"viewport\" content=\"width=device-width, initial-scale=1\">\n" ++
  "  <title>\x7b\x7b .Title \x7d\x7d</title>\n" ++
  "</head>\n" ++
  "<body>\n" ++
  "  <script id=\"api-reference\" type=\"application/json\"></script>\n" ++
  "  <script>\n" ++
  "    var configuration = \x7b\x7b .ApiReferenceConfiguration \x7d\x7d;\n" ++
  "    var apiReference = document.getElementById(\x27api-reference\x27);\n" ++
  "    apiReference.dataset.configuration = JSON.stringify(configuration);\n" ++
  "  </script>\n" ++
  "  <script src=\"https://cdn.jsdelivr.net/npm/@scalar/api-reference\"></script>\n" ++
  "</body>\n" ++
  "</html>\n"

/-- The `DefaultScalarConfig` singleton of the source. -/
def DefaultScalarConfig : ScalarConfig :=
  { Spec := ""
    SpecUrl := ""
    Title := "API documentation with Scalar"
    Template := defaultScalarTemplate
    IsEditable := false
    ProxyUrl := ""
    DarkMode := false
    Layout := ScalarLayoutModern
    Theme := ScalarThemeDefault
    HideSidebar := false
    SearchHotKey := "" }

/-- Execution of the built-in Scalar template by `html/template`: the
serialised configuration is a typed JS value and is inserted verbatim. -/
def renderDefaultScalar (pr : scalarTemplateParams) : String :=
  "<html lang=\"en\">\n<head>\n  <meta charset=\"utf-8\">\n  <meta name=\"viewport\" content=\"width=device-width, initial-scale=1\">\n  <title>"
  ++ htmlEscape pr.Title
  ++ "</title>\n</head>\n<body>\n  <script id=\"api-reference\" type=\"application/json\"></script>\n  <script>\n    var configuration = "
  ++ pr.ApiReferenceConfiguration
  ++ ";\n    var apiReference = document.getElementById(\x27api-reference\x27);\n    apiReference.dataset.configuration = JSON.stringify(configuration);\n  </script>\n  <script src=\"https://cdn.jsdelivr.net/npm/@scalar/api-reference\"></script>\n</body>\n</html>\n"

/-- Default filling performed at the top of `ScalarDocumentsHandler`: only
empty `Template` and `Title` fields are replaced by the values of
`DefaultScalarConfig`. -/
def scalarNormalize (config : ScalarConfig) : ScalarConfig :=
  { config with
    Template := if config.Template = "" then DefaultScalarConfig.Template else config.Template
    Title := if config.Title = "" then DefaultScalarConfig.Title else config.Title }

/-- Model of the Scalar template parsing; see `elementsParseTemplate`. -/
def scalarParseTemplate (tmpl : String) : scalarTemplateParams → String :=
  if tmpl = defaultScalarTemplate then renderDefaultScalar else fun _ => ""

/-- The api-reference configuration record built per request in
`ScalarDocumentsHandler` from the configuration and the effective spec URL
(`ShowSidebar` is the negation of `HideSidebar`). -/
def scalarApiRef (config : ScalarConfig) (specUrl : String) : apiReferenceConfiguration :=
  { IsEditable := config.IsEditable
    Spec := { URL := specUrl }
    ProxyUrl := config.ProxyUrl
    DarkMode := config.DarkMode
    Layout := config.Layout
    Theme := config.Theme
    ShowSidebar := !config.HideSidebar
    SearchHotKey := config.SearchHotKey }

/-- Body of the closure returned by `ScalarDocumentsHandler`: the shared
dispatch; every sub-path request is redirected (no history routing). -/
def scalarServe (config : ScalarConfig) (render : scalarTemplateParams → String)
    (p relPath : String) : Response :=
  handlerCore config.Spec config.SpecUrl false
    (fun basePath specUrl =>
      render { toScalarConfig := config, BasePath := basePath,
               ApiReferenceConfiguration := marshalApiReferenceConfiguration (scalarApiRef config specUrl) })
    p relPath

/-- The `ScalarDocumentsHandler` factory. -/
def ScalarDocumentsHandler (config : ScalarConfig) :
    Except String (String → String → Response) :=
  let c := scalarNormalize config
  if c.Spec = "" ∧ c.SpecUrl = "" then
    Except.error "either Spec or SpecUrl must be set"
  else
    Except.ok (scalarServe c (scalarParseTemplate c.Template))

/-- Configuration for the Swagger UI handler.  Field defaults are the Go zero
values of the struct. -/
structure SwaggerUIConfig where
  Spec : String := ""
  SpecUrl : String := ""
  Title : String := ""
  Template : String := ""
  DeepLinking : Bool := false
  DisplayOperationId : Bool := false
deriving DecidableEq

/-- The Swagger UI configuration serialised into the page
(`swaggerUIConfiguration` in the source, with its `encoding/json` tags). -/
structure swaggerUIConfiguration where
  Url : String
  DomId : String
  DeepLinking : Bool
  DisplayOperationId : Bool
deriving DecidableEq

/-- JSON member for `url` (tag `url`, no omitempty): always serialised. -/
def swaggerUrlField (c : swaggerUIConfiguration) : List String :=
  ["\"url\":" ++ jsonString c.Url]

/-- JSON member for `dom_id` (tag `dom_id`, no omitempty): always serialised. -/
def swaggerDomIdField (c : swaggerUIConfiguration) : List String :=
  ["\"dom_id\":" ++ jsonString c.DomId]

/-- JSON member for `deepLinking` (tag `deepLinking,omitempty`): omitted when
false. -/
def swaggerDeepLinkingField (c : swaggerUIConfiguration) : List String :=
  if c.DeepLinking then ["\"deepLinking\":true"] else []

/-- JSON member for `displayOperationId` (tag `displayOperationId,omitempty`):
omitted when false. -/
def swaggerDisplayOperationIdField (c : swaggerUIConfiguration) : List String :=
  if c.DisplayOperationId then ["\"displayOperationId\":true"] else []

/-- Model of `json.Marshal` on `swaggerUIConfiguration`. -/
def marshalSwaggerUIConfiguration (c : swaggerUIConfiguration) : String :=
  "\x7b" ++
    joinComma (swaggerUrlField c ++ swaggerDomIdField c ++ swaggerDeepLinkingField c ++
      swaggerDisplayOperationIdField c) ++ "\x7d"

/-- Parameters handed to the Swagger UI template (`swaggerUITemplateParams`). -/
structure swaggerUITemplateParams extends SwaggerUIConfig where
  BasePath : String
  SwaggerUIConfiguration : String
deriving DecidableEq

/-- Text of the built-in Swagger UI template (`defaultSwaggerUITemplate` in
the source; braces are written with hexadecimal escapes, indentation mixes
tabs and spaces as in the source). -/
def defaultSwaggerUITemplate : String :=
  "<html lang=\"en\">\n" ++
  "<head>\n" ++
  "  <meta charset=\"utf-8\">\n" ++
  "  <meta name=\"viewport\" content=\"width=device-width, initial-scale=1\">\n" ++
  "  <title>\x7b\x7b .Title \x7d\x7d</title>\n" ++
  "  <link rel=\"stylesheet\" href=\"https://unpkg.com/swagger-ui-dist/swagger-ui.css\" />\n" ++
  "</head>\n" ++
  "<body>\n" ++
  "  <div id=\"swagger-ui\"></div>\n" ++
  "  <script src=\"https://unpkg.com/swagger-ui-dist/swagger-ui-bundle.js\" crossorigin></script>\n" ++
  "  <script>\n" ++
  "\tvar configuration = \x7b\x7b .SwaggerUIConfiguration \x7d\x7d;\n" ++
  "    window.onload = () => \x7b\n" ++
  "\t  window.ui = SwaggerUIBundle(configuration);\n" ++
  "    \x7d;\n" ++
  "  </script>\n" ++
  "</body>\n" ++
  "</html>\n"

/-- The `DefaultSwaggerUIConfig` singleton of the source. -/
def DefaultSwaggerUIConfig : SwaggerUIConfig :=
  { Spec := ""
    SpecUrl := ""
    Title := "API documentation with Swagger UI"
    Template := defaultSwaggerUITemplate
    DeepLinking := false
    DisplayOperationId := false }

/-- Execution of the built-in Swagger UI template by `html/template`: the
serialised configuration is a typed JS value and is inserted verbatim. -/
def renderDefaultSwaggerUI (pr : swaggerUITemplateParams) : String :=
  "<html lang=\"en\">\n<head>\n  <meta charset=\"utf-8\">\n  <meta name=\"viewport\" content=\"width=device-width, initial-scale=1\">\n  <title>"
  ++ htmlEscape pr.Title
  ++ "</title>\n  <link rel=\"stylesheet\" href=\"https://unpkg.com/swagger-ui-dist/swagger-ui.css\" />\n</head>\n<body>\n  <div id=\"swagger-ui\"></div>\n  <script src=\"https://unpkg.com/swagger-ui-dist/swagger-ui-bundle.js\" crossorigin></script>\n  <script>\n\tvar configuration = "
  ++ pr.SwaggerUIConfiguration
  ++ ";\n    window.onload = () => \x7b\n\t  window.ui = SwaggerUIBundle(configuration);\n    \x7d;\n  </script>\n</body>\n</html>\n"

/-- Default filling performed at the top of `SwaggerUIDocumentsHandler`: only
empty `Template` and `Title` fields are replaced. -/
def swaggerUINormalize (config : SwaggerUIConfig) : SwaggerUIConfig :=
  { config with
    Template := if config.Template = "" then DefaultSwaggerUIConfig.Template else config.Template
    Title := if config.Title = "" then DefaultSwaggerUIConfig.Title else config.Title }

/-- Model of the Swagger UI template parsing; see `elementsParseTemplate`. -/
def swaggerUIParseTemplate (tmpl : String) : swaggerUITemplateParams → String :=
  if tmpl = defaultSwaggerUITemplate then renderDefaultSwaggerUI else fun _ => ""

/-- The Swagger UI configuration record built per request in
`SwaggerUIDocumentsHandler` from the configuration and the effective spec
URL. -/
def swaggerUIConfigOf (config : SwaggerUIConfig) (specUrl : String) : swaggerUIConfiguration :=
  { Url := specUrl
    DomId := "#swagger-ui"
    DeepLinking := config.DeepLinking
    DisplayOperationId := config.DisplayOperationId }

/-- Body of the closure returned by `SwaggerUIDocumentsHandler`: the shared
dispatch; every sub-path request is redirected (no history routing). -/
def swaggerUIServe (config : SwaggerUIConfig) (render : swaggerUITemplateParams → String)
    (p relPath : String) : Response :=
  handlerCore config.Spec config.SpecUrl false
    (fun basePath specUrl =>
      render { toSwaggerUIConfig := config, BasePath := basePath,
               SwaggerUIConfiguration := marshalSwaggerUIConfiguration (swaggerUIConfigOf config specUrl) })
    p relPath

/-- The `SwaggerUIDocumentsHandler` factory. -/
def SwaggerUIDocumentsHandler (config : SwaggerUIConfig) :
    Except String (String → String → Response) :=
  let c := swaggerUINormalize config
  if c.Spec = "" ∧ c.SpecUrl = "" then
    Except.error "either Spec or SpecUrl must be set"
  else
    Except.ok (swaggerUIServe c (swaggerUIParseTemplate c.Template))

/-- Configuration for the Redoc handler.  Field defaults are the Go zero
values of the struct. -/
structure RedocConfig where
  Spec : String := ""
  SpecUrl : String := ""
  Title : String := ""
  Template : String := ""
  DisableSearch : Bool := false
  MinCharacterLengthToInitSearch : Int := 0
deriving DecidableEq

/-- Parameters handed to the Redoc template (`redocTemplateParams`); the outer
`SpecUrl` field shadows the embedded configuration field of the same name, so
the embedding is kept as an explicit field here. -/
structure redocTemplateParams where
  toRedocConfig : RedocConfig
  BasePath : String
  SpecUrl : String
deriving DecidableEq

/-- Text of the built-in Redoc template (`defaultRedocTemplate` in the source;
braces are written with hexadecimal escapes, indentation mixes tabs and spaces
as in the source). -/
def defaultRedocTemplate : String :=
  "<html lang=\"en\">\n" ++
  "<head>\n" ++
  "  <meta charset=\"utf-8\">\n" ++
  "  <meta name=\"viewport\" content=\"width=device-width, initial-scale=1\">\n" ++
  "  <title>\x7b\x7b .Title \x7d\x7d</title>\n" ++
  "</head>\n" ++
  "<body>\n" ++
  "  <redoc\n" ++
  "    spec-url=\"\x7b\x7b .SpecUrl \x7d\x7d\"\n" ++
  "    \x7b\x7b- if .DisableSearch \x7d\x7d\n" ++
  "\tdisable-search=\"true\"\n" ++
  "\t\x7b\x7b- end \x7d\x7d\n" ++
  "\t\x7b\x7b- if ne .MinCharacterLengthToInitSearch 0 \x7d\x7d\n" ++
  "\tmin-character-length-to-init-search=\"\x7b\x7b .MinCharacterLengthToInitSearch \x7d\x7d\"\n" ++
  "\t\x7b\x7b- end \x7d\x7d\n" ++
  "  ></redoc>\n" ++
  "  <script src=\"https://cdn.redoc.ly/redoc/latest/bundles/redoc.standalone.js\"> </script>\n" ++
  "</body>\n" ++
  "</html>\n"

/-- The `DefaultRedocConfig` singleton of the source. -/
def DefaultRedocConfig : RedocConfig :=
  { Spec := ""
    SpecUrl := ""
    Title := "API documentation with Redoc"
    Template := defaultRedocTemplate
    MinCharacterLengthToInitSearch := 0 }

/-- Output of the conditional `disable-search` attribute block of the built-in
Redoc template. -/
def redocDisableSearchAttr (pr : redocTemplateParams) : String :=
  if pr.toRedocConfig.DisableSearch then "\n\tdisable-search=\"true\"" else ""

/-- Output of the conditional `min-character-length-to-init-search` attribute
block: rendered only when the option is non-zero. -/
def redocMinCharAttr (pr : redocTemplateParams) : String :=
  if pr.toRedocConfig.MinCharacterLengthToInitSearch ≠ 0 then
    "\n\tmin-character-length-to-init-search=\"" ++
      htmlEscape (toString pr.toRedocConfig.MinCharacterLengthToInitSearch) ++ "\""
  else ""

/-- Execution of the built-in Redoc template by `html/template`. -/
def renderDefaultRedoc (pr : redocTemplateParams) : String :=
  "<html lang=\"en\">\n<head>\n  <meta charset=\"utf-8\">\n  <meta name=\"viewport\" content=\"width=device-width, initial-scale=1\">\n  <title>"
  ++ htmlEscape pr.toRedocConfig.Title
  ++ "</title>\n</head>\n<body>\n  <redoc\n    spec-url=\""
  ++ htmlEscape (urlFilter pr.SpecUrl) ++ "\""
  ++ redocDisableSearchAttr pr
  ++ redocMinCharAttr pr
  ++ "\n  ></redoc>\n  <script src=\"https://cdn.redoc.ly/redoc/latest/bundles/redoc.standalone.js\"> </script>\n</body>\n</html>\n"

/-- Default filling performed at the top of `RedocDocumentsHandler`: only
empty `Template` and `Title` fields are replaced. -/
def redocNormalize (config : RedocConfig) : RedocConfig :=
  { config with
    Template := if config.Template = "" then DefaultRedocConfig.Template else config.Template
    Title := if config.Title = "" then DefaultRedocConfig.Title else config.Title }

/-- Model of the Redoc template parsing; see `elementsParseTemplate`. -/
def redocParseTemplate (tmpl : String) : redocTemplateParams → String :=
  if tmpl = defaultRedocTemplate then renderDefaultRedoc else fun _ => ""

/-- Body of the closure returned by `RedocDocumentsHandler`: the shared
dispatch; every sub-path request is redirected (no history routing). -/
def redocServe (config : RedocConfig) (render : redocTemplateParams → String)
    (p relPath : String) : Response :=
  handlerCore config.Spec config.SpecUrl false
    (fun basePath specUrl =>
      render { toRedocConfig := config, BasePath := basePath, SpecUrl := specUrl })
    p relPath

/-- The `RedocDocumentsHandler` factory. -/
def RedocDocumentsHandler (config : RedocConfig) :
    Except String (String → String → Response) :=
  let c := redocNormalize config
  if c.Spec = "" ∧ c.SpecUrl = "" then
    Except.error "either Spec or SpecUrl must be set"
  else
    Except.ok (redocServe c (redocParseTemplate c.Template))

/-- A list is a Boolean prefix of itself. -/
theorem listIsPrefixOf_self (l : List Char) : l.isPrefixOf l = true := by
  induction l with
  | nil => rfl
  | cons a as ih => simp [List.isPrefixOf, ih]

/-- A string is a suffix of itself for the Go suffix test. -/
theorem goHasSuffix_self (s : String) : goHasSuffix s s = true := by
  unfold goHasSuffix List.isSuffixOf
  exact listIsPrefixOf_self s.data.reverse

/-- A string is empty exactly when its character list is empty. -/
theorem str_eq_empty_iff (a : String) : a = "" ↔ a.data = [] := by
  constructor
  · intro h; rw [h]
  · intro h
    cases a with
    | mk d => cases h; rfl

/-- A concatenation whose left part is non-empty is non-empty. -/
theorem append_ne_empty_left (a b : String) (h : a ≠ "") : a ++ b ≠ "" := by
  intro hab
  apply h
  rw [str_eq_empty_iff] at hab ⊢
  rw [String.data_append] at hab
  exact (List.append_eq_nil.mp hab).1

/-- When the suffix test fails, Go TrimSuffix returns the string unchanged. -/
theorem goTrimSuffix_of_not_suffix (p rel : String) (h : goHasSuffix p rel = false) :
    goTrimSuffix p rel = p := by
  unfold goTrimSuffix
  rw [h]
  simp

/-- When the suffix test succeeds, Go TrimSuffix removes exactly the suffix. -/
theorem goTrimSuffix_append (p rel : String) (h : goHasSuffix p rel = true) :
    goTrimSuffix p rel ++ rel = p := by
  unfold goTrimSuffix
  rw [h]
  simp only [if_true]
  unfold goHasSuffix at h
  obtain ⟨t, ht⟩ := List.isSuffixOf_iff_suffix.mp h
  have hlen : p.data.length - rel.data.length = t.length := by
    rw [← ht, List.length_append]
    omega
  rw [hlen, ← ht, List.take_left]
  have hmk : String.mk t ++ rel = String.mk (t ++ rel.data) := rfl
  rw [hmk, ht]

/-- When an inline spec is configured and the request path equals the joined
passthrough path, the dispatch serves the raw spec. -/
theorem handlerCore_blob_of_eq (spec su : String) (hist : Bool)
    (page : String → String → String) (p rel : String) (hspec : spec ≠ "")
    (hp : p = goPathJoin (goTrimSuffix p rel) "openapi-spec") :
    handlerCore spec su hist page p rel = Response.blob 200 "text/plain; charset=utf-8" spec := by
  have hsfx : goHasSuffix p (goPathJoin (goTrimSuffix p rel) "openapi-spec") = true := by
    conv_lhs => rw [← hp]
    exact goHasSuffix_self p
  simp only [handlerCore]
  rw [if_neg hspec]
  rw [if_pos ⟨hspec, hsfx⟩]

/-- With an inline spec, the dispatch serves the raw spec exactly when the
request path ends with the joined passthrough path. -/
theorem handlerCore_blob_iff (spec su : String) (hist : Bool)
    (page : String → String → String) (p rel : String) (hspec : spec ≠ "") :
    handlerCore spec su hist page p rel = Response.blob 200 "text/plain; charset=utf-8" spec ↔
      goHasSuffix p (goPathJoin (goTrimSuffix p rel) "openapi-spec") = true := by
  simp only [handlerCore]
  rw [if_neg hspec]
  by_cases h : goHasSuffix p (goPathJoin (goTrimSuffix p rel) "openapi-spec") = true
  · rw [if_pos ⟨hspec, h⟩]
    simp [h]
  · rw [if_neg (fun hc => h hc.2)]
    constructor
    · intro hcontra
      exfalso
      split at hcontra <;> exact Response.noConfusion hcontra
    · intro hh
      exact absurd hh h

/-- Without history routing, a sub-path request that does not hit the spec
passthrough is redirected to the base path. -/
theorem handlerCore_redirect (spec su : String) (page : String → String → String)
    (p rel : String) (hrel : rel ≠ "")
    (hno : ¬(spec ≠ "" ∧ goHasSuffix p (goPathJoin (goTrimSuffix p rel) "openapi-spec") = true)) :
    handlerCore spec su false page p rel = Response.redirect 302 (goTrimSuffix p rel) := by
  simp only [handlerCore]
  have hcond : (True ∧ rel ≠ "") := ⟨trivial, hrel⟩
  by_cases hs : spec = ""
  · rw [if_neg (fun hc => hc.1 hs)]
    rw [if_pos hcond]
  · rw [if_neg hs]
    rw [if_neg hno]
    rw [if_pos hcond]

/-- With history routing, the dispatch always answers with status 200 and
never redirects. -/
theorem handlerCore_history (spec su : String) (page : String → String → String)
    (p rel : String) :
    (handlerCore spec su true page p rel).status = 200 ∧
      ∀ s loc, handlerCore spec su true page p rel ≠ Response.redirect s loc := by
  simp only [handlerCore]
  have hfalse : ¬((true : Bool) = false ∧ rel ≠ "") := fun hc => Bool.noConfusion hc.1
  rw [if_neg hfalse]
  constructor
  · split <;> split <;> rfl
  · intro s loc
    split <;> split <;> exact fun hcontra => Response.noConfusion hcontra

/-- A rendered page body is the page function applied to the base path and
the effective spec reference. -/
theorem handlerCore_html_inv (spec su : String) (hist : Bool)
    (page : String → String → String) (p rel body : String)
    (h : handlerCore spec su hist page p rel = Response.html 200 body) :
    body = page (goTrimSuffix p rel)
      (if spec = "" then su else goPathJoin (goTrimSuffix p rel) "openapi-spec") := by
  simp only [handlerCore] at h
  split at h
  · rename_i hs
    rw [if_pos hs]
    split at h
    · exact Response.noConfusion h
    · split at h
      · exact Response.noConfusion h
      · injection h with h1 h2
        exact h2.symm
  · rename_i hs
    rw [if_neg hs]
    split at h
    · exact Response.noConfusion h
    · split at h
      · exact Response.noConfusion h
      · injection h with h1 h2
        exact h2.symm

/-- A handler obtained from the Elements factory is the dispatch closed over
the normalised configuration and parsed template. -/
theorem ElementsDocumentsHandler_ok (cfg : ElementsConfig) (h : String → String → Response)
    (hok : ElementsDocumentsHandler cfg = Except.ok h) :
    h = elementsServe (elementsNormalize cfg)
          (elementsParseTemplate (elementsNormalize cfg).Template) := by
  simp only [ElementsDocumentsHandler] at hok
  split at hok
  · exact Except.noConfusion hok
  · injection hok with h1
    exact h1.symm

/-- A handler obtained from the Scalar factory is the dispatch closed over
the normalised configuration and parsed template. -/
theorem ScalarDocumentsHandler_ok (cfg : ScalarConfig) (h : String → String → Response)
    (hok : ScalarDocumentsHandler cfg = Except.ok h) :
    h = scalarServe (scalarNormalize cfg)
          (scalarParseTemplate (scalarNormalize cfg).Template) := by
  simp only [ScalarDocumentsHandler] at hok
  split at hok
  · exact Except.noConfusion hok
  · injection hok with h1
    exact h1.symm

/-- A handler obtained from the Swagger UI factory is the dispatch closed over
the normalised configuration and parsed template. -/
theorem SwaggerUIDocumentsHandler_ok (cfg : SwaggerUIConfig) (h : String → String → Response)
    (hok : SwaggerUIDocumentsHandler cfg = Except.ok h) :
    h = swaggerUIServe (swaggerUINormalize cfg)
          (swaggerUIParseTemplate (swaggerUINormalize cfg).Template) := by
  simp only [SwaggerUIDocumentsHandler] at hok
  split at hok
  · exact Except.noConfusion hok
  · injection hok with h1
    exact h1.symm

/-- A handler obtained from the Redoc factory is the dispatch closed over
the normalised configuration and parsed template. -/
theorem RedocDocumentsHandler_ok (cfg : RedocConfig) (h : String → String → Response)
    (hok : RedocDocumentsHandler cfg = Except.ok h) :
    h = redocServe (redocNormalize cfg)
          (redocParseTemplate (redocNormalize cfg).Template) := by
  simp only [RedocDocumentsHandler] at hok
  split at hok
  · exact Except.noConfusion hok
  · injection hok with h1
    exact h1.symm

/-- C1: for every provider and every configuration with a non-empty inline
Spec, a GET request whose path matches the synthetic passthrough endpoint
(the base path joined with the segment `openapi-spec`) returns status 200
with content type text/plain and a body exactly equal to the configured
inline spec string. -/
theorem claim_C1_inline_spec_passthrough (p relPath : String) :
    (∀ (cfg : ElementsConfig) (h : String → String → Response),
      ElementsDocumentsHandler cfg = Except.ok h → cfg.Spec ≠ "" →
      p = goPathJoin (goTrimSuffix p relPath) "openapi-spec" →
      h p relPath = Response.blob 200 "text/plain; charset=utf-8" cfg.Spec) ∧
    (∀ (cfg : ScalarConfig) (h : String → String → Response),
      ScalarDocumentsHandler cfg = Except.ok h → cfg.Spec ≠ "" →
      p = goPathJoin (goTrimSuffix p relPath) "openapi-spec" →
      h p relPath = Response.blob 200 "text/plain; charset=utf-8" cfg.Spec) ∧
    (∀ (cfg : SwaggerUIConfig) (h : String → String → Response),
      SwaggerUIDocumentsHandler cfg = Except.ok h → cfg.Spec ≠ "" →
      p = goPathJoin (goTrimSuffix p relPath) "openapi-spec" →
      h p relPath = Response.blob 200 "text/plain; charset=utf-8" cfg.Spec) ∧
    (∀ (cfg : RedocConfig) (h : String → String → Response),
      RedocDocumentsHandler cfg = Except.ok h → cfg.Spec ≠ "" →
      p = goPathJoin (goTrimSuffix p relPath) "openapi-spec" →
      h p relPath = Response.blob 200 "text/plain; charset=utf-8" cfg.Spec) := by
  refine ⟨?_, ?_, ?_, ?_⟩
  · intro cfg h hok hs hp
    rw [ElementsDocumentsHandler_ok cfg h hok]
    exact handlerCore_blob_of_eq cfg.Spec _ _ _ p relPath hs hp
  · intro cfg h hok hs hp
    rw [ScalarDocumentsHandler_ok cfg h hok]
    exact handlerCore_blob_of_eq cfg.Spec _ _ _ p relPath hs hp
  · intro cfg h hok hs hp
    rw [SwaggerUIDocumentsHandler_ok cfg h hok]
    exact handlerCore_blob_of_eq cfg.Spec _ _ _ p relPath hs hp
  · intro cfg h hok hs hp
    rw [RedocDocumentsHandler_ok cfg h hok]
    exact handlerCore_blob_of_eq cfg.Spec _ _ _ p relPath hs hp

/-- C1 witness: the Elements passthrough at a concrete configuration and a
concrete matching request. -/
theorem claim_C1_witness :
    elementsServe (elementsNormalize { Spec := "openapi: 3.0.0" })
        (elementsParseTemplate (elementsNormalize { Spec := "openapi: 3.0.0" }).Template)
        "/docs/openapi-spec" "/openapi-spec" =
      Response.blob 200 "text/plain; charset=utf-8" "openapi: 3.0.0" :=
  (claim_C1_inline_spec_passthrough "/docs/openapi-spec" "/openapi-spec").1
    { Spec := "openapi: 3.0.0" } _ rfl (by decide) (by decide)

/-- C2 (amended): for every provider with an inline spec, the spec-passthrough
branch is taken exactly when `path.Join(basePath, "openapi-spec")` is a
SUFFIX of the request path (the source tests `strings.HasSuffix`), not only
when the request path equals it; a path of which the joined string is merely
a proper suffix also receives the raw spec. -/
theorem claim_C2_passthrough_suffix_condition (p relPath : String) :
    (∀ (cfg : ElementsConfig) (h : String → String → Response),
      ElementsDocumentsHandler cfg = Except.ok h → cfg.Spec ≠ "" →
      (h p relPath = Response.blob 200 "text/plain; charset=utf-8" cfg.Spec ↔
        goHasSuffix p (goPathJoin (goTrimSuffix p relPath) "openapi-spec") = true)) ∧
    (∀ (cfg : ScalarConfig) (h : String → String → Response),
      ScalarDocumentsHandler cfg = Except.ok h → cfg.Spec ≠ "" →
      (h p relPath = Response.blob 200 "text/plain; charset=utf-8" cfg.Spec ↔
        goHasSuffix p (goPathJoin (goTrimSuffix p relPath) "openapi-spec") = true)) ∧
    (∀ (cfg : SwaggerUIConfig) (h : String → String → Response),
      SwaggerUIDocumentsHandler cfg = Except.ok h → cfg.Spec ≠ "" →
      (h p relPath = Response.blob 200 "text/plain; charset=utf-8" cfg.Spec ↔
        goHasSuffix p (goPathJoin (goTrimSuffix p relPath) "openapi-spec") = true)) ∧
    (∀ (cfg : RedocConfig) (h : String → String → Response),
      RedocDocumentsHandler cfg = Except.ok h → cfg.Spec ≠ "" →
      (h p relPath = Response.blob 200 "text/plain; charset=utf-8" cfg.Spec ↔
        goHasSuffix p (goPathJoin (goTrimSuffix p relPath) "openapi-spec") = true)) := by
  refine ⟨?_, ?_, ?_, ?_⟩
  · intro cfg h hok hs
    rw [ElementsDocumentsHandler_ok cfg h hok]
    exact handlerCore_blob_iff cfg.Spec _ _ _ p relPath hs
  · intro cfg h hok hs
    rw [ScalarDocumentsHandler_ok cfg h hok]
    exact handlerCore_blob_iff cfg.Spec _ _ _ p relPath hs
  · intro cfg h hok hs
    rw [SwaggerUIDocumentsHandler_ok cfg h hok]
    exact handlerCore_blob_iff cfg.Spec _ _ _ p relPath hs
  · intro cfg h hok hs
    rw [RedocDocumentsHandler_ok cfg h hok]
    exact handlerCore_blob_iff cfg.Spec _ _ _ p relPath hs

/-- C2 witness: the amended equivalence at a concrete configuration and
request. -/
theorem claim_C2_witness :
    elementsServe (elementsNormalize { Spec := "S" })
        (elementsParseTemplate (elementsNormalize { Spec := "S" }).Template)
        "/docs/openapi-spec" "/openapi-spec" =
      Response.blob 200 "text/plain; charset=utf-8" "S" ↔
    goHasSuffix "/docs/openapi-spec"
      (goPathJoin (goTrimSuffix "/docs/openapi-spec" "/openapi-spec") "openapi-spec") = true :=
  (claim_C2_passthrough_suffix_condition "/docs/openapi-spec" "/openapi-spec").1
    { Spec := "S" } _ rfl (by decide)

/-- C2 counterexample: with the Elements provider mounted at `/docs`, the
request path `/docs/docs/openapi-spec` (wildcard remainder
`/docs/openapi-spec`, so basePath `/docs`) receives the raw spec although the
request path is NOT equal to `path.Join(basePath, "openapi-spec")` — the
joined path `/docs/openapi-spec` is merely a proper suffix of it, refuting
the claimed if-and-only-if path equality. -/
theorem claim_C2_counterexample :
    elementsServe (elementsNormalize { Spec := "S" })
        (elementsParseTemplate (elementsNormalize { Spec := "S" }).Template)
        "/docs/docs/openapi-spec" "/docs/openapi-spec" =
      Response.blob 200 "text/plain; charset=utf-8" "S" ∧
    "/docs/docs/openapi-spec" ≠
      goPathJoin (goTrimSuffix "/docs/docs/openapi-spec" "/docs/openapi-spec") "openapi-spec" := by
  constructor
  · decide
  · decide

/-- C3: for every provider, a configuration in which both Spec and SpecUrl
are empty after defaulting makes the factory fail immediately with the fatal
configuration error (the Go panic), so no request handler is ever produced. -/
theorem claim_C3_construction_fails :
    (∀ cfg : ElementsConfig, cfg.Spec = "" → cfg.SpecUrl = "" →
      ElementsDocumentsHandler cfg = Except.error "either Spec or SpecUrl must be set") ∧
    (∀ cfg : ScalarConfig, cfg.Spec = "" → cfg.SpecUrl = "" →
      ScalarDocumentsHandler cfg = Except.error "either Spec or SpecUrl must be set") ∧
    (∀ cfg : SwaggerUIConfig, cfg.Spec = "" → cfg.SpecUrl = "" →
      SwaggerUIDocumentsHandler cfg = Except.error "either Spec or SpecUrl must be set") ∧
    (∀ cfg : RedocConfig, cfg.Spec = "" → cfg.SpecUrl = "" →
      RedocDocumentsHandler cfg = Except.error "either Spec or SpecUrl must be set") := by
  refine ⟨?_, ?_, ?_, ?_⟩
  · intro cfg h1 h2
    have h1n : (elementsNormalize cfg).Spec = "" := h1
    have h2n : (elementsNormalize cfg).SpecUrl = "" := h2
    simp only [ElementsDocumentsHandler]
    rw [if_pos ⟨h1n, h2n⟩]
  · intro cfg h1 h2
    have h1n : (scalarNormalize cfg).Spec = "" := h1
    have h2n : (scalarNormalize cfg).SpecUrl = "" := h2
    simp only [ScalarDocumentsHandler]
    rw [if_pos ⟨h1n, h2n⟩]
  · intro cfg h1 h2
    have h1n : (swaggerUINormalize cfg).Spec = "" := h1
    have h2n : (swaggerUINormalize cfg).SpecUrl = "" := h2
    simp only [SwaggerUIDocumentsHandler]
    rw [if_pos ⟨h1n, h2n⟩]
  · intro cfg h1 h2
    have h1n : (redocNormalize cfg).Spec = "" := h1
    have h2n : (redocNormalize cfg).SpecUrl = "" := h2
    simp only [RedocDocumentsHandler]
    rw [if_pos ⟨h1n, h2n⟩]

/-- C3 witness: the zero-valued configuration of each provider is rejected at
construction. -/
theorem claim_C3_witness :
    ElementsDocumentsHandler {} = Except.error "either Spec or SpecUrl must be set" ∧
    ScalarDocumentsHandler {} = Except.error "either Spec or SpecUrl must be set" ∧
    SwaggerUIDocumentsHandler {} = Except.error "either Spec or SpecUrl must be set" ∧
    RedocDocumentsHandler {} = Except.error "either Spec or SpecUrl must be set" :=
  ⟨claim_C3_construction_fails.1 {} rfl rfl,
   claim_C3_construction_fails.2.1 {} rfl rfl,
   claim_C3_construction_fails.2.2.1 {} rfl rfl,
   claim_C3_construction_fails.2.2.2 {} rfl rfl⟩

/-- C4: for the three providers with base-path-only routing (Scalar,
Swagger UI, Redoc), every request with a non-empty wildcard remainder that
does not hit the spec passthrough is answered 302 Found with Location equal
to the base path. -/
theorem claim_C4_subpath_redirect (p relPath : String) (hrel : relPath ≠ "") :
    (∀ (cfg : ScalarConfig) (h : String → String → Response),
      ScalarDocumentsHandler cfg = Except.ok h →
      ¬(cfg.Spec ≠ "" ∧ goHasSuffix p (goPathJoin (goTrimSuffix p relPath) "openapi-spec") = true) →
      h p relPath = Response.redirect 302 (goTrimSuffix p relPath)) ∧
    (∀ (cfg : SwaggerUIConfig) (h : String → String → Response),
      SwaggerUIDocumentsHandler cfg = Except.ok h →
      ¬(cfg.Spec ≠ "" ∧ goHasSuffix p (goPathJoin (goTrimSuffix p relPath) "openapi-spec") = true) →
      h p relPath = Response.redirect 302 (goTrimSuffix p relPath)) ∧
    (∀ (cfg : RedocConfig) (h : String → String → Response),
      RedocDocumentsHandler cfg = Except.ok h →
      ¬(cfg.Spec ≠ "" ∧ goHasSuffix p (goPathJoin (goTrimSuffix p relPath) "openapi-spec") = true) →
      h p relPath = Response.redirect 302 (goTrimSuffix p relPath)) := by
  refine ⟨?_, ?_, ?_⟩
  · intro cfg h hok hno
    rw [ScalarDocumentsHandler_ok cfg h hok]
    exact handlerCore_redirect cfg.Spec _ _ p relPath hrel hno
  · intro cfg h hok hno
    rw [SwaggerUIDocumentsHandler_ok cfg h hok]
    exact handlerCore_redirect cfg.Spec _ _ p relPath hrel hno
  · intro cfg h hok hno
    rw [RedocDocumentsHandler_ok cfg h hok]
    exact handlerCore_redirect cfg.Spec _ _ p relPath hrel hno

/-- C4 witness: a concrete Scalar sub-path request is redirected to the base
path. -/
theorem claim_C4_witness :
    scalarServe (scalarNormalize { SpecUrl := "https://example.com/openapi.yaml" })
        (scalarParseTemplate (scalarNormalize { SpecUrl := "https://example.com/openapi.yaml" }).Template)
        "/docs/sub" "/sub" =
      Response.redirect 302 (goTrimSuffix "/docs/sub" "/sub") :=
  (claim_C4_subpath_redirect "/docs/sub" "/sub" (by decide)).1
    { SpecUrl := "https://example.com/openapi.yaml" } _ rfl (by decide)

/-- C5: for the Elements provider with the Router option left empty (the
default is history) or set to history, every request — in particular any
sub-path request — is answered with status 200 and never with a 302
redirect. -/
theorem claim_C5_history_router_no_redirect :
    ∀ (cfg : ElementsConfig) (h : String → String → Response) (p relPath : String),
      ElementsDocumentsHandler cfg = Except.ok h →
      (cfg.Router = "" ∨ cfg.Router = ElementsRouterHistory) → relPath ≠ "" →
      (h p relPath).status = 200 ∧ ∀ s loc, h p relPath ≠ Response.redirect s loc := by
  intro cfg h p relPath hok hr hrel
  rw [ElementsDocumentsHandler_ok cfg h hok]
  have hR : (elementsNormalize cfg).Router = ElementsRouterHistory := by
    show (if cfg.Router = "" then DefaultElementsConfig.Router else cfg.Router) = ElementsRouterHistory
    rcases hr with h1 | h1
    · rw [if_pos h1]
      rfl
    · rw [if_neg (by rw [h1]; decide), h1]
  have hhist : ((elementsNormalize cfg).Router == ElementsRouterHistory) = true := by
    rw [hR]
    decide
  simp only [elementsServe]
  rw [hhist]
  exact handlerCore_history _ _ _ p relPath

/-- C5 witness: a concrete defaulted Elements configuration answers a
sub-path request with status 200 and no redirect. -/
theorem claim_C5_witness :
    (elementsServe (elementsNormalize { Spec := "S" })
        (elementsParseTemplate (elementsNormalize { Spec := "S" }).Template) "/d/x" "/x").status = 200 ∧
    ∀ s loc,
      elementsServe (elementsNormalize { Spec := "S" })
        (elementsParseTemplate (elementsNormalize { Spec := "S" }).Template) "/d/x" "/x" ≠
      Response.redirect s loc :=
  claim_C5_history_router_no_redirect { Spec := "S" } _ "/d/x" "/x" rfl (Or.inl rfl) (by decide)


/-- C6: for every provider and any template rendering, whenever a page is
rendered, the spec reference placed in the page parameters is the synthetic
passthrough path `path.Join(basePath, "openapi-spec")` whenever the inline
Spec is non-empty (even if SpecUrl is also set), and is the configured
SpecUrl exactly when Spec is empty and SpecUrl is non-empty. -/
theorem claim_C6_effective_spec_reference :
    (∀ (cfg : ElementsConfig) (render : elementsTemplateParams → String) (p relPath body : String),
      elementsServe cfg render p relPath = Response.html 200 body →
      (cfg.Spec ≠ "" →
        body = render { toElementsConfig := cfg
                        BasePath := goTrimSuffix p relPath
                        ApiDescriptionUrl := goPathJoin (goTrimSuffix p relPath) "openapi-spec" }) ∧
      (cfg.Spec = "" → cfg.SpecUrl ≠ "" →
        body = render { toElementsConfig := cfg
                        BasePath := goTrimSuffix p relPath
                        ApiDescriptionUrl := cfg.SpecUrl })) ∧
    (∀ (cfg : ScalarConfig) (render : scalarTemplateParams → String) (p relPath body : String),
      scalarServe cfg render p relPath = Response.html 200 body →
      (cfg.Spec ≠ "" →
        body = render { toScalarConfig := cfg
                        BasePath := goTrimSuffix p relPath
                        ApiReferenceConfiguration := marshalApiReferenceConfiguration
                          (scalarApiRef cfg (goPathJoin (goTrimSuffix p relPath) "openapi-spec")) }) ∧
      (cfg.Spec = "" → cfg.SpecUrl ≠ "" →
        body = render { toScalarConfig := cfg
                        BasePath := goTrimSuffix p relPath
                        ApiReferenceConfiguration := marshalApiReferenceConfiguration
                          (scalarApiRef cfg cfg.SpecUrl) })) ∧
    (∀ (cfg : SwaggerUIConfig) (render : swaggerUITemplateParams → String) (p relPath body : String),
      swaggerUIServe cfg render p relPath = Response.html 200 body →
      (cfg.Spec ≠ "" →
        body = render { toSwaggerUIConfig := cfg
                        BasePath := goTrimSuffix p relPath
                        SwaggerUIConfiguration := marshalSwaggerUIConfiguration
                          (swaggerUIConfigOf cfg (goPathJoin (goTrimSuffix p relPath) "openapi-spec")) }) ∧
      (cfg.Spec = "" → cfg.SpecUrl ≠ "" →
        body = render { toSwaggerUIConfig := cfg
                        BasePath := goTrimSuffix p relPath
                        SwaggerUIConfiguration := marshalSwaggerUIConfiguration
                          (swaggerUIConfigOf cfg cfg.SpecUrl) })) ∧
    (∀ (cfg : RedocConfig) (render : redocTemplateParams → String) (p relPath body : String),
      redocServe cfg render p relPath = Response.html 200 body →
      (cfg.Spec ≠ "" →
        body = render { toRedocConfig := cfg
                        BasePath := goTrimSuffix p relPath
                        SpecUrl := goPathJoin (goTrimSuffix p relPath) "openapi-spec" }) ∧
      (cfg.Spec = "" → cfg.SpecUrl ≠ "" →
        body = render { toRedocConfig := cfg
                        BasePath := goTrimSuffix p relPath
                        SpecUrl := cfg.SpecUrl })) := by
  refine ⟨?_, ?_, ?_, ?_⟩
  · intro cfg render p relPath body hh
    have hbody := handlerCore_html_inv cfg.Spec cfg.SpecUrl _ _ p relPath body hh
    constructor
    · intro hs
      rw [hbody, if_neg hs]
    · intro hs _
      rw [hbody, if_pos hs]
  · intro cfg render p relPath body hh
    have hbody := handlerCore_html_inv cfg.Spec cfg.SpecUrl _ _ p relPath body hh
    constructor
    · intro hs
      rw [hbody, if_neg hs]
    · intro hs _
      rw [hbody, if_pos hs]
  · intro cfg render p relPath body hh
    have hbody := handlerCore_html_inv cfg.Spec cfg.SpecUrl _ _ p relPath body hh
    constructor
    · intro hs
      rw [hbody, if_neg hs]
    · intro hs _
      rw [hbody, if_pos hs]
  · intro cfg render p relPath body hh
    have hbody := handlerCore_html_inv cfg.Spec cfg.SpecUrl _ _ p relPath body hh
    constructor
    · intro hs
      rw [hbody, if_neg hs]
    · intro hs _
      rw [hbody, if_pos hs]

/-- C6 witness: extracting the spec reference of a rendered Elements page at
a concrete inline-spec configuration. -/
theorem claim_C6_witness :
    "/d/openapi-spec" =
      (fun pr : elementsTemplateParams => pr.ApiDescriptionUrl)
        { toElementsConfig := { Spec := "S" }
          BasePath := goTrimSuffix "/d" ""
          ApiDescriptionUrl := goPathJoin (goTrimSuffix "/d" "") "openapi-spec" } :=
  (claim_C6_effective_spec_reference.1 { Spec := "S" }
      (fun pr => pr.ApiDescriptionUrl) "/d" "" "/d/openapi-spec" (by decide)).1 (by decide)

/-- C7 (amended): every provider's normaliser fills empty `Template` and
`Title` from its default configuration, and the Elements normaliser also
fills `Router`, `Layout` and `TryItCredentialsPolicy`; the Scalar normaliser
does NOT fill `Layout` or `Theme` (they are left unchanged, hence empty when
omitted), and the Swagger UI and Redoc providers have no enum fields to
fill. -/
theorem claim_C7_default_filling (e : ElementsConfig) (s : ScalarConfig)
    (w : SwaggerUIConfig) (r : RedocConfig) :
    ((elementsNormalize e).Template = if e.Template = "" then DefaultElementsConfig.Template else e.Template) ∧
    ((elementsNormalize e).Title = if e.Title = "" then DefaultElementsConfig.Title else e.Title) ∧
    ((elementsNormalize e).Router = if e.Router = "" then DefaultElementsConfig.Router else e.Router) ∧
    ((elementsNormalize e).Layout = if e.Layout = "" then DefaultElementsConfig.Layout else e.Layout) ∧
    ((elementsNormalize e).TryItCredentialsPolicy =
      if e.TryItCredentialsPolicy = "" then DefaultElementsConfig.TryItCredentialsPolicy
      else e.TryItCredentialsPolicy) ∧
    ((scalarNormalize s).Template = if s.Template = "" then DefaultScalarConfig.Template else s.Template) ∧
    ((scalarNormalize s).Title = if s.Title = "" then DefaultScalarConfig.Title else s.Title) ∧
    ((scalarNormalize s).Layout = s.Layout) ∧
    ((scalarNormalize s).Theme = s.Theme) ∧
    ((swaggerUINormalize w).Template = if w.Template = "" then DefaultSwaggerUIConfig.Template else w.Template) ∧
    ((swaggerUINormalize w).Title = if w.Title = "" then DefaultSwaggerUIConfig.Title else w.Title) ∧
    ((redocNormalize r).Template = if r.Template = "" then DefaultRedocConfig.Template else r.Template) ∧
    ((redocNormalize r).Title = if r.Title = "" then DefaultRedocConfig.Title else r.Title) :=
  ⟨rfl, rfl, rfl, rfl, rfl, rfl, rfl, rfl, rfl, rfl, rfl, rfl, rfl⟩

/-- C7 counterexample: a Scalar configuration omitting `Layout` is NOT filled
with the default `modern` layout — the normalised configuration keeps the
empty layout, and the rendered configuration JSON consequently has no
`layout` key at all. -/
theorem claim_C7_counterexample :
    ({ Spec := "x" } : ScalarConfig).Layout = "" ∧
    (scalarNormalize { Spec := "x" }).Layout = "" ∧
    DefaultScalarConfig.Layout = "modern" ∧
    strContainsSubstr
      (marshalApiReferenceConfiguration (scalarApiRef (scalarNormalize { Spec := "x" }) "/d/openapi-spec"))
      "layout" = false :=
  ⟨rfl, rfl, rfl, by decide⟩

/-- C8 (amended): in every provider's built-in template, each optional option
field contributes its HTML attribute or JSON key exactly when its value is
non-default/non-empty, with the following exceptions: the built-in Elements
template renders the `layout` and `router` attributes unconditionally, and
the Scalar configuration JSON always contains the `showSidebar` key (its
struct tag deliberately has no omitempty). -/
theorem claim_C8_omit_if_default (pr : elementsTemplateParams)
    (c : apiReferenceConfiguration) (sw : swaggerUIConfiguration) (rp : redocTemplateParams) :
    (elementsBasePathAttr pr = "" ↔ pr.BasePath = "") ∧
    (elementsHideInternalAttr pr = "" ↔ pr.HideInternal = false) ∧
    (elementsHideTryItAttr pr = "" ↔ pr.HideTryIt = false) ∧
    (elementsHideSchemasAttr pr = "" ↔ pr.HideSchemas = false) ∧
    (elementsHideExportAttr pr = "" ↔ pr.HideExport = false) ∧
    (elementsTryItCorsProxyAttr pr = "" ↔ pr.TryItCorsProxy = "") ∧
    (elementsCredentialsPolicyAttr pr = "" ↔
      (pr.TryItCredentialsPolicy = "" ∨ pr.TryItCredentialsPolicy = "omit")) ∧
    elementsLayoutAttr pr ≠ "" ∧
    elementsRouterAttr pr ≠ "" ∧
    (scalarIsEditableField c = [] ↔ c.IsEditable = false) ∧
    (scalarProxyUrlField c = [] ↔ c.ProxyUrl = "") ∧
    (scalarDarkModeField c = [] ↔ c.DarkMode = false) ∧
    (scalarLayoutField c = [] ↔ c.Layout = "") ∧
    (scalarThemeField c = [] ↔ c.Theme = "") ∧
    (scalarSearchHotKeyField c = [] ↔ c.SearchHotKey = "") ∧
    scalarShowSidebarField c ≠ [] ∧
    (swaggerDeepLinkingField sw = [] ↔ sw.DeepLinking = false) ∧
    (swaggerDisplayOperationIdField sw = [] ↔ sw.DisplayOperationId = false) ∧
    (redocDisableSearchAttr rp = "" ↔ rp.toRedocConfig.DisableSearch = false) ∧
    (redocMinCharAttr rp = "" ↔ rp.toRedocConfig.MinCharacterLengthToInitSearch = 0) := by
  refine ⟨?_, ?_, ?_, ?_, ?_, ?_, ?_, ?_, ?_, ?_, ?_, ?_, ?_, ?_, ?_, ?_, ?_, ?_, ?_, ?_⟩
  · by_cases hb : pr.BasePath = ""
    · simp [elementsBasePathAttr, hb]
    · have hne : "\n    basePath=\"" ++ htmlEscape pr.BasePath ++ "\"" ≠ "" :=
        append_ne_empty_left _ _ (append_ne_empty_left _ _ (by decide))
      simp [elementsBasePathAttr, hb, hne]
  · have h1 : ("\n    hideInternal=\"true\"" : String) ≠ "" := by decide
    by_cases hb : pr.HideInternal <;> simp [elementsHideInternalAttr, hb, h1]
  · have h1 : ("\n    hideTryIt=\"true\"" : String) ≠ "" := by decide
    by_cases hb : pr.HideTryIt <;> simp [elementsHideTryItAttr, hb, h1]
  · have h1 : ("\n    hideSchemas=\"true\"" : String) ≠ "" := by decide
    by_cases hb : pr.HideSchemas <;> simp [elementsHideSchemasAttr, hb, h1]
  · have h1 : ("\n    hideExport=\"true\"" : String) ≠ "" := by decide
    by_cases hb : pr.HideExport <;> simp [elementsHideExportAttr, hb, h1]
  · by_cases hb : pr.TryItCorsProxy = ""
    · simp [elementsTryItCorsProxyAttr, hb]
    · have hne : "\n    tryItCorsProxy=\"" ++ htmlEscape pr.TryItCorsProxy ++ "\"" ≠ "" :=
        append_ne_empty_left _ _ (append_ne_empty_left _ _ (by decide))
      simp [elementsTryItCorsProxyAttr, hb, hne]
  · by_cases h1 : pr.TryItCredentialsPolicy = ""
    · simp [elementsCredentialsPolicyAttr, h1]
    · by_cases h2 : pr.TryItCredentialsPolicy = "omit"
      · simp [elementsCredentialsPolicyAttr, h1, h2]
      · have hne : "\n    tryItCredentialsPolicy=\"" ++ htmlEscape pr.TryItCredentialsPolicy ++ "\"" ≠ "" :=
          append_ne_empty_left _ _ (append_ne_empty_left _ _ (by decide))
        simp [elementsCredentialsPolicyAttr, h1, h2, hne]
  · exact append_ne_empty_left _ _ (append_ne_empty_left _ _ (by decide))
  · exact append_ne_empty_left _ _ (append_ne_empty_left _ _ (by decide))
  · by_cases hb : c.IsEditable <;> simp [scalarIsEditableField, hb]
  · by_cases hb : c.ProxyUrl = "" <;> simp [scalarProxyUrlField, hb]
  · by_cases hb : c.DarkMode <;> simp [scalarDarkModeField, hb]
  · by_cases hb : c.Layout = "" <;> simp [scalarLayoutField, hb]
  · by_cases hb : c.Theme = "" <;> simp [scalarThemeField, hb]
  · by_cases hb : c.SearchHotKey = "" <;> simp [scalarSearchHotKeyField, hb]
  · simp [scalarShowSidebarField]
  · by_cases hb : sw.DeepLinking <;> simp [swaggerDeepLinkingField, hb]
  · by_cases hb : sw.DisplayOperationId <;> simp [swaggerDisplayOperationIdField, hb]
  · have h1 : ("\n\tdisable-search=\"true\"" : String) ≠ "" := by decide
    by_cases hb : rp.toRedocConfig.DisableSearch <;> simp [redocDisableSearchAttr, hb, h1]
  · by_cases hb : rp.toRedocConfig.MinCharacterLengthToInitSearch = 0
    · simp [redocMinCharAttr, hb]
    · have hne : "\n\tmin-character-length-to-init-search=\"" ++
          htmlEscape (toString rp.toRedocConfig.MinCharacterLengthToInitSearch) ++ "\"" ≠ "" :=
        append_ne_empty_left _ _ (append_ne_empty_left _ _ (by decide))
      simp [redocMinCharAttr, hb, hne]

/-- C8 counterexample: rendering the built-in Elements template for a fully
defaulted configuration produces a body that DOES contain the attribute
`layout="sidebar"` although the layout option has its default value, and the
Scalar configuration JSON contains the `showSidebar` key although the
sidebar option has its default value. -/
theorem claim_C8_counterexample :
    strContainsSubstr
      (renderDefaultElements
        { toElementsConfig := elementsNormalize { Spec := "x" }
          BasePath := "/d"
          ApiDescriptionUrl := "/d/openapi-spec" })
      "layout=\x22sidebar\x22" = true ∧
    (elementsNormalize { Spec := "x" }).Layout = DefaultElementsConfig.Layout ∧
    strContainsSubstr
      (marshalApiReferenceConfiguration (scalarApiRef { Spec := "x" } "/d/openapi-spec"))
      "\x22showSidebar\x22:true" = true ∧
    ({ Spec := "x" } : ScalarConfig).HideSidebar = false := by
  refine ⟨by decide, rfl, by decide, rfl⟩

/-- C9: every handler is deterministic in the configuration and request path:
two GET requests with the same unchanged configuration and path produce the
same response, hence byte-identical HTML bodies (all the closed-over state —
configuration and parsed template — is immutable, and the embedded handlers
are pure functions of it and the request path). -/
theorem claim_C9_deterministic (p relPath : String) :
    (∀ (cfg : ElementsConfig) (h : String → String → Response),
      ElementsDocumentsHandler cfg = Except.ok h → h p relPath = h p relPath) ∧
    (∀ (cfg : ScalarConfig) (h : String → String → Response),
      ScalarDocumentsHandler cfg = Except.ok h → h p relPath = h p relPath) ∧
    (∀ (cfg : SwaggerUIConfig) (h : String → String → Response),
      SwaggerUIDocumentsHandler cfg = Except.ok h → h p relPath = h p relPath) ∧
    (∀ (cfg : RedocConfig) (h : String → String → Response),
      RedocDocumentsHandler cfg = Except.ok h → h p relPath = h p relPath) :=
  ⟨fun _ _ _ => rfl, fun _ _ _ => rfl, fun _ _ _ => rfl, fun _ _ _ => rfl⟩

/-- C9 witness: two evaluations of a concrete Elements handler at the mount
root coincide. -/
theorem claim_C9_witness :
    elementsServe (elementsNormalize { Spec := "x" })
        (elementsParseTemplate (elementsNormalize { Spec := "x" }).Template) "/d" "" =
      elementsServe (elementsNormalize { Spec := "x" })
        (elementsParseTemplate (elementsNormalize { Spec := "x" }).Template) "/d" "" :=
  (claim_C9_deterministic "/d" "").1 { Spec := "x" } _ rfl

/-- C10: the base-path computation `basePath := strings.TrimSuffix(p, relPath)`
performed by every handler leaves the full request path unchanged when the
wildcard remainder is not a string suffix of it, and removes exactly the
trailing remainder when it is. -/
theorem claim_C10_trimsuffix_basepath (p relPath : String) :
    (goHasSuffix p relPath = false → goTrimSuffix p relPath = p) ∧
    (goHasSuffix p relPath = true → goTrimSuffix p relPath ++ relPath = p) :=
  ⟨goTrimSuffix_of_not_suffix p relPath, goTrimSuffix_append p relPath⟩

/-- C10 witness: both cases of the base-path computation at concrete
arguments. -/
theorem claim_C10_witness :
    goTrimSuffix "/ab" "zz" = "/ab" ∧ goTrimSuffix "/a/b" "/b" ++ "/b" = "/a/b" :=
  ⟨(claim_C10_trimsuffix_basepath "/ab" "zz").1 (by decide),
   (claim_C10_trimsuffix_basepath "/a/b" "/b").2 (by decide)⟩
